import Mathlib

/-!
Shallow embedding of the picoart style-transfer client
(`src/utils/styleTransferAPI.js`, the authoritative variant; the unnamed
variants differ only in constants and in the prompt tables, noted inline).

The pipeline is an async JS workflow.  All I/O is abstracted into an
environment record `Env` carrying the responses the network and the image
decoder would produce; the functions below are the direct translation of the
control flow of the source over that environment.  A JS promise that never
settles (the source installs no `onerror` handler on the decoding `Image`)
is modelled by `Outcome.pending`.
-/

namespace PicoArt

/-- Result of a JS promise: either it resolves with a value, or it never
settles (neither resolve nor reject is ever called). -/
inductive Outcome (α : Type) where
  | resolved (value : α)
  | pending
deriving DecidableEq, Repr

/-- Pixel dimensions of a decoded image (`img.width` / `img.height`). -/
structure Image where
  width : Nat
  height : Nat
deriving DecidableEq, Repr

/-- The JSON `output` field of a prediction: absent, a single string, or an
array of strings. -/
inductive JsOutput where
  | undef
  | str (s : String)
  | arr (elems : List String)
deriving DecidableEq, Repr

/-- One status-poll response: HTTP `ok` flag plus the decoded JSON body
(`status` and `output`). -/
structure PollResp where
  ok : Bool
  status : String
  output : JsOutput
deriving DecidableEq, Repr

/-- The prediction snapshot the loop variable `result` holds: the `status`
and `output` fields of the last JSON body assigned to it. -/
structure Snapshot where
  status : String
  output : JsOutput
deriving DecidableEq, Repr

/-- Environment: everything the outside world (image decoder, network)
answers during one run of the real pipeline.  `decoded = none` models a
corrupt/unsupported photo (the decoder never fires `onload`).  `polls k` is
the response to the k-th status poll, k ≥ 1.  `finalOk`/`finalBytes` are the
HTTP ok flag and body of the final GET of the output locator. -/
structure Env where
  decoded : Option Image
  createOk : Bool
  createStatus : Nat
  initial : Snapshot
  polls : Nat → PollResp
  finalOk : Bool
  finalBytes : List Nat

/-- The value returned to the caller, mirroring the JS result object
(`success`, `resultUrl`, `blob`, `remoteUrl`, `isMock`, `error`).  A local
object URL is modelled by the bytes it addresses. -/
structure TransferResult where
  success : Bool
  resultUrl : Option (List Nat)
  blob : Option (List Nat)
  remoteUrl : Option String
  isMock : Bool
  error : Option String
deriving DecidableEq, Repr

/-- Observable side effects of one run: how many times the photo was handed
to the resizer, how many create requests, status polls and final-image
fetches were issued, and the list of percentage progress values reported
through the caller's callback during polling. -/
structure RunObs where
  resizeCalls : Nat
  createCalls : Nat
  pollCalls : Nat
  finalFetchCalls : Nat
  reports : List ℚ
deriving DecidableEq, Repr

/-- JS `a || b` where `a` is a string-or-undefined lookup and `b` a string:
falls through on `undefined` and on the empty string (both falsy). -/
def jsOrStr : Option String → String → String
  | some s, d => if s = "" then d else s
  | none, d => d

/-- JS guard `!apiKey || apiKey === 'YOUR_REPLICATE_API_KEY_HERE'`:
`none` models an absent (undefined/null) key, `some ""` an empty one. -/
def apiKeyMissing : Option String → Bool
  | none => true
  | some s => s = "" || s = "YOUR_REPLICATE_API_KEY_HERE"

/-- `Array.isArray(result.output) ? result.output[0] : result.output`:
first element of a plural list (`undefined` when the list is empty),
otherwise the single value itself. -/
def jsResultUrl : JsOutput → Option String
  | .undef => none
  | .str s => some s
  | .arr elems => elems.head?

/-- JS falsiness of `resultUrl`: `undefined` or the empty string. -/
def urlFalsy : Option String → Bool
  | none => true
  | some s => s = ""

/-- Progress percentage reported on the k-th poll:
`Math.min(95, 10 + attempts * 1.5)`. -/
def pollProgress (attempts : Nat) : ℚ := min 95 (10 + (attempts : ℚ) * 3 / 2)

/-- Exit of the polling loop: either the `while` condition became false
(`done` with the last snapshot, the final attempt counter — which equals the
number of polls issued — and the reported progress values), or a status poll
came back non-ok and the loop threw (`pollFailed` after that many polls). -/
inductive LoopOut where
  | done (snap : Snapshot) (attempts : Nat) (reports : List ℚ)
  | pollFailed (attempts : Nat) (reports : List ℚ)
deriving DecidableEq, Repr

/-- Progress values reported before the loop exited. -/
def LoopOut.reports : LoopOut → List ℚ
  | .done _ _ r => r
  | .pollFailed _ r => r

/-- Final value of the `attempts` counter, i.e. the number of polls issued. -/
def LoopOut.attempts : LoopOut → Nat
  | .done _ a _ => a
  | .pollFailed a _ => a

/-- The polling `while` loop of `applyStyleTransfer`:
`while (result.status !== 'succeeded' && result.status !== 'failed' &&
attempts < maxAttempts) { attempts++; fetch status; if (!ok) throw;
result = json; report progress }`.  `fuel` is an upper bound on the
remaining iterations used only to make the recursion structural; callers
pass `fuel = maxA - attempts`, and since the loop condition implies
`attempts < maxA`, the `fuel = 0` branch inside the condition is
unreachable from `pollLoop`. -/
def pollLoopAux (polls : Nat → PollResp) (maxA : Nat) :
    Nat → Snapshot → Nat → List ℚ → LoopOut
  | fuel, snap, attempts, reports =>
    if snap.status ≠ "succeeded" ∧ snap.status ≠ "failed" ∧ attempts < maxA then
      match fuel with
      | 0 => .done snap attempts reports
      | fuel' + 1 =>
        let r := polls (attempts + 1)
        if r.ok then
          pollLoopAux polls maxA fuel' { status := r.status, output := r.output }
            (attempts + 1) (reports ++ [pollProgress (attempts + 1)])
        else
          .pollFailed (attempts + 1) reports
    else
      .done snap attempts reports

/-- The polling loop as entered by `applyStyleTransfer`: starts at
`attempts = 0` with the snapshot the create request returned. -/
def pollLoop (polls : Nat → PollResp) (maxA : Nat) (snap : Snapshot) : LoopOut :=
  pollLoopAux polls maxA maxA snap 0 []

/-- The object built by the `catch` branch:
`{ success: false, error: error.message }`. -/
def failedResult (msg : String) : TransferResult :=
  { success := false, resultUrl := none, blob := none, remoteUrl := none,
    isMock := false, error := some msg }

/-- `mockStyleTransfer`: resolves with the original photo echoed back as
both the blob and the object-URL handle, tagged `isMock: true`.  (Its
simulated 10%..100% progress ticks do not touch the network.) -/
def mockStyleTransfer (photoFile : List Nat) : TransferResult :=
  { success := true, resultUrl := some photoFile, blob := some photoFile,
    remoteUrl := none, isMock := true, error := none }

/-- `resizeImage` dimension logic: if `width > maxWidth` then
`height = trunc(height * maxWidth / width)` (assignment to `canvas.height`
truncates the positive JS float, i.e. Nat division) and `width = maxWidth`;
otherwise the dimensions pass through unchanged.  The jpeg re-encoding is
abstracted to the canvas dimensions.  When decoding fails the source never
installs `onerror`, so the promise never settles. -/
def resizeImage (decoded : Option Image) (maxWidth : Nat) : Outcome Image :=
  match decoded with
  | none => .pending
  | some img =>
    if img.width > maxWidth then
      .resolved { width := maxWidth, height := img.height * maxWidth / img.width }
    else
      .resolved img

/-- `Math.round(a / b)` for naturals, `b > 0`:
`floor(a/b + 1/2) = (2a + b) / (2b)` in integer division. -/
def jsRoundNat (a b : Nat) : Nat := (2 * a + b) / (2 * b)

/-- `getStyleDescription` of the main variant: per-style keyword table with
a generic default. -/
def getStyleDescription (styleId : String) : String :=
  jsOrStr (List.lookup styleId [
    ("impressionism", "impressionist brushstrokes, light and color, outdoor lighting"),
    ("expressionism", "expressionist style, emotional, bold colors, dramatic"),
    ("cubism", "cubist style, geometric shapes, multiple perspectives"),
    ("surrealism", "surrealist style, dreamlike, imaginative"),
    ("romanticism", "romantic style, dramatic, emotional, sublime"),
    ("baroque", "baroque style, dramatic lighting, ornate, detailed"),
    ("renaissance", "renaissance style, balanced composition, realistic"),
    ("classical", "classical style, idealized beauty, harmonious"),
    ("byzantine", "byzantine style, golden, religious, iconic"),
    ("korean", "Korean traditional painting style, ink and colors, natural"),
    ("chinese", "Chinese ink painting style, monochrome, expressive brushwork"),
    ("japanese", "Japanese ukiyo-e style, woodblock print, flat colors")])
    "artistic painting style"

/-- The artwork descriptor fields the prompt builders read. -/
structure Artwork where
  artist : String
  artistEn : Option String
  style : String
deriving DecidableEq, Repr

/-- Per-artist keyword table of `createArtisticPrompt` (FLUX variant). -/
def artistPrompts : List (String × String) := [
  ("Claude Monet", "soft brushstrokes, dappled light, vibrant colors, outdoor atmosphere, impressionist painting style"),
  ("Pierre-Auguste Renoir", "warm tones, soft focus, luminous skin, joyful atmosphere, impressionist portrait style"),
  ("Edgar Degas", "dynamic composition, ballet dancers, indoor lighting, pastel colors, impressionist scene"),
  ("Edvard Munch", "emotional intensity, swirling forms, dramatic colors, expressionist painting style"),
  ("Egon Schiele", "angular lines, emotional depth, expressive gestures, expressionist portrait style"),
  ("Vincent van Gogh", "thick impasto brushstrokes, swirling patterns, vibrant colors, emotional intensity, post-impressionist style"),
  ("Paul Cézanne", "geometric forms, structured composition, muted colors, post-impressionist style"),
  ("Henri Matisse", "bold colors, simplified forms, decorative patterns, fauvist painting style"),
  ("Pablo Picasso", "fragmented forms, multiple perspectives, geometric shapes, cubist painting style")]

/-- Per-style keyword table of `createArtisticPrompt` (FLUX variant). -/
def styleKeywords : List (String × String) := [
  ("impressionism", "soft brushstrokes, natural light, outdoor scene, vibrant colors"),
  ("expressionism", "emotional expression, bold colors, distorted forms, dramatic mood"),
  ("fauvism", "wild colors, simplified forms, bold brushwork"),
  ("cubism", "geometric shapes, fragmented perspective, angular forms"),
  ("surrealism", "dreamlike quality, imaginative elements, surreal atmosphere"),
  ("romanticism", "dramatic lighting, emotional atmosphere, sublime beauty"),
  ("baroque", "dramatic chiaroscuro, rich colors, ornate details"),
  ("renaissance", "realistic proportions, balanced composition, classical beauty")]

/-- `createArtisticPrompt`:
`artist = artwork.artistEn || artwork.artist`;
`artistStyle = artistPrompts[artist] || styleKeywords[style] ||
'artistic painting style'`; then the fixed template. -/
def createArtisticPrompt (artwork : Artwork) : String :=
  let artist := jsOrStr artwork.artistEn artwork.artist
  let artistStyle :=
    jsOrStr (List.lookup artist artistPrompts)
      (jsOrStr (List.lookup artwork.style styleKeywords) "artistic painting style")
  "A beautiful painting in the style of " ++ artist ++ ", " ++ artistStyle ++
    ", masterpiece, high quality, professional artwork, detailed, artistic interpretation"

/-- `applyStyleTransfer`: resize (hangs forever on decode failure), create
the prediction (non-ok response throws `API Error: <status>`), poll up to 60
attempts, classify the terminal state, fetch the output locator (its HTTP
status is never inspected) and resolve; every throw is caught and converted
to `{ success: false, error }`.  The request bodies (prompt, image payload)
do not influence the control flow and are abstracted into `Env`'s responses. -/
def applyStyleTransfer (photoFile : List Nat) (artwork : Artwork) (env : Env) :
    Outcome TransferResult × RunObs :=
  match env.decoded with
  | none =>
    (.pending,
     { resizeCalls := 1, createCalls := 0, pollCalls := 0, finalFetchCalls := 0, reports := [] })
  | some _ =>
    if env.createOk = false then
      (.resolved (failedResult (String.append "API Error: " (toString env.createStatus))),
       { resizeCalls := 1, createCalls := 1, pollCalls := 0, finalFetchCalls := 0, reports := [] })
    else
      match pollLoop env.polls 60 env.initial with
      | .pollFailed att reps =>
        (.resolved (failedResult "Failed to get prediction status"),
         { resizeCalls := 1, createCalls := 1, pollCalls := att, finalFetchCalls := 0, reports := reps })
      | .done snap att reps =>
        if snap.status = "failed" then
          (.resolved (failedResult "Style transfer failed"),
           { resizeCalls := 1, createCalls := 1, pollCalls := att, finalFetchCalls := 0, reports := reps })
        else if snap.status ≠ "succeeded" then
          (.resolved (failedResult "Processing timeout"),
           { resizeCalls := 1, createCalls := 1, pollCalls := att, finalFetchCalls := 0, reports := reps })
        else
          if urlFalsy (jsResultUrl snap.output) then
            (.resolved (failedResult "No result image"),
             { resizeCalls := 1, createCalls := 1, pollCalls := att, finalFetchCalls := 0, reports := reps })
          else
            (.resolved { success := true, resultUrl := some env.finalBytes,
                         blob := some env.finalBytes, remoteUrl := jsResultUrl snap.output,
                         isMock := false, error := none },
             { resizeCalls := 1, createCalls := 1, pollCalls := att, finalFetchCalls := 1, reports := reps })

/-- `processStyleTransfer`: missing/placeholder key goes straight to the
mock; otherwise run the real pipeline and substitute the mock whenever it
resolves unsuccessfully.  (If the pipeline's promise never settles, neither
does this one.) -/
def processStyleTransfer (photoFile : List Nat) (artwork : Artwork)
    (apiKey : Option String) (env : Env) : Outcome TransferResult × RunObs :=
  if apiKeyMissing apiKey then
    (.resolved (mockStyleTransfer photoFile),
     { resizeCalls := 0, createCalls := 0, pollCalls := 0, finalFetchCalls := 0, reports := [] })
  else
    match applyStyleTransfer photoFile artwork env with
    | (.pending, obs) => (.pending, obs)
    | (.resolved r, obs) =>
      if r.success = false then (.resolved (mockStyleTransfer photoFile), obs)
      else (.resolved r, obs)

/-! ### Helper lemmas about the polling loop -/

theorem pollProgress_le_95 (k : Nat) : pollProgress k ≤ 95 :=
  min_le_left _ _

theorem pollProgress_lt_100 (k : Nat) : pollProgress k < 100 :=
  lt_of_le_of_lt (pollProgress_le_95 k) (by norm_num)

theorem pollProgress_mono {j k : Nat} (h : j ≤ k) : pollProgress j ≤ pollProgress k := by
  unfold pollProgress
  refine min_le_min le_rfl ?_
  have hc : (j : ℚ) ≤ (k : ℚ) := Nat.cast_le.mpr h
  linarith

theorem sorted_append_singleton {l : List ℚ} {p : ℚ}
    (hs : l.Sorted (· ≤ ·)) (hp : ∀ q ∈ l, q ≤ p) : (l ++ [p]).Sorted (· ≤ ·) := by
  refine List.pairwise_append.mpr ⟨hs, List.pairwise_singleton _ _, ?_⟩
  intro a ha b hb
  simp only [List.mem_singleton] at hb
  subst hb
  exact hp a ha

/-- Invariant of the polling loop: starting from a sorted report list whose
entries are all below the progress value of the current attempt counter, the
loop exits with a sorted report list whose entries are all at most 95. -/
theorem pollLoopAux_reports_invariant (polls : Nat → PollResp) (maxA : Nat) :
    ∀ fuel snap attempts reports, reports.Sorted (· ≤ ·) →
      (∀ q ∈ reports, q ≤ pollProgress attempts) →
      ((pollLoopAux polls maxA fuel snap attempts reports).reports.Sorted (· ≤ ·) ∧
       ∀ q ∈ (pollLoopAux polls maxA fuel snap attempts reports).reports, q ≤ 95) := by
  intro fuel
  induction fuel with
  | zero =>
    intro snap attempts reports hs hb
    have hout : (pollLoopAux polls maxA 0 snap attempts reports).reports = reports := by
      rw [pollLoopAux]
      split
      · rfl
      · rfl
    rw [hout]
    exact ⟨hs, fun q hq => le_trans (hb q hq) (pollProgress_le_95 attempts)⟩
  | succ fuel ih =>
    intro snap attempts reports hs hb
    rw [pollLoopAux]
    split
    · by_cases hok : (polls (attempts + 1)).ok
      · simp only [hok, if_true]
        refine ih _ (attempts + 1) _ ?_ ?_
        · exact sorted_append_singleton hs fun q hq =>
            le_trans (hb q hq) (pollProgress_mono (Nat.le_succ attempts))
        · intro q hq
          rcases List.mem_append.mp hq with hq | hq
          · exact le_trans (hb q hq) (pollProgress_mono (Nat.le_succ attempts))
          · simp only [List.mem_singleton] at hq
            subst hq
            exact le_rfl
      · simp only [hok, if_false, Bool.false_eq_true]
        exact ⟨hs, fun q hq => le_trans (hb q hq) (pollProgress_le_95 attempts)⟩
    · exact ⟨hs, fun q hq => le_trans (hb q hq) (pollProgress_le_95 attempts)⟩

/-- If every poll answers ok with a non-terminal status, the loop runs until
the attempt counter hits the budget and exits `done` with a non-terminal
snapshot. -/
theorem pollLoopAux_stuck (polls : Nat → PollResp) (maxA : Nat)
    (hp : ∀ k, (polls k).ok = true ∧ (polls k).status ≠ "succeeded" ∧
      (polls k).status ≠ "failed") :
    ∀ fuel snap attempts reports, maxA - attempts ≤ fuel → attempts ≤ maxA →
      snap.status ≠ "succeeded" → snap.status ≠ "failed" →
      ∃ snap' reports',
        pollLoopAux polls maxA fuel snap attempts reports = .done snap' maxA reports' ∧
        snap'.status ≠ "succeeded" ∧ snap'.status ≠ "failed" := by
  intro fuel
  induction fuel with
  | zero =>
    intro snap attempts reports hfuel hle hns hnf
    have heq : attempts = maxA := by omega
    subst heq
    rw [pollLoopAux]
    rw [if_neg (by simp [Nat.lt_irrefl])]
    exact ⟨snap, reports, rfl, hns, hnf⟩
  | succ fuel ih =>
    intro snap attempts reports hfuel hle hns hnf
    by_cases hlt : attempts < maxA
    · rw [pollLoopAux]
      rw [if_pos ⟨hns, hnf, hlt⟩]
      simp only [(hp (attempts + 1)).1, if_true]
      exact ih { status := (polls (attempts + 1)).status, output := (polls (attempts + 1)).output }
        (attempts + 1) (reports ++ [pollProgress (attempts + 1)]) (by omega) (by omega)
        (hp (attempts + 1)).2.1 (hp (attempts + 1)).2.2
    · have heq : attempts = maxA := by omega
      subst heq
      rw [pollLoopAux]
      rw [if_neg (by simp [Nat.lt_irrefl])]
      exact ⟨snap, reports, rfl, hns, hnf⟩

/-- If polls 1..k-1 answer ok with non-terminal statuses and the k-th poll
answers non-ok (k within the budget), the loop throws at exactly the k-th
poll. -/
theorem pollLoopAux_poll_failure (polls : Nat → PollResp) (maxA : Nat) :
    ∀ fuel snap attempts reports k, attempts < k → k ≤ maxA → maxA - attempts ≤ fuel →
      (∀ j, attempts < j → j < k → (polls j).ok = true ∧ (polls j).status ≠ "succeeded" ∧
        (polls j).status ≠ "failed") →
      (polls k).ok = false →
      snap.status ≠ "succeeded" → snap.status ≠ "failed" →
      ∃ reports', pollLoopAux polls maxA fuel snap attempts reports = .pollFailed k reports' := by
  intro fuel
  induction fuel with
  | zero =>
    intro snap attempts reports k hak hkm hfuel hj hk hns hnf
    omega
  | succ fuel ih =>
    intro snap attempts reports k hak hkm hfuel hj hk hns hnf
    have hlt : attempts < maxA := by omega
    rw [pollLoopAux]
    rw [if_pos ⟨hns, hnf, hlt⟩]
    by_cases hek : attempts + 1 = k
    · subst hek
      simp only [hk, if_false, Bool.false_eq_true]
      exact ⟨reports, rfl⟩
    · have h1 := hj (attempts + 1) (by omega) (by omega)
      simp only [h1.1, if_true]
      exact ih _ (attempts + 1) _ k (by omega) hkm (by omega)
        (fun j haj hjk => hj j (by omega) hjk) hk h1.2.1 h1.2.2

/-! ### Helper lemmas about the pipeline -/

/-- The real pipeline never consults the HTTP status flag of the final
image fetch. -/
theorem applyStyleTransfer_finalOk_irrelevant (photoFile : List Nat) (artwork : Artwork)
    (env : Env) (b : Bool) :
    applyStyleTransfer photoFile artwork { env with finalOk := b } =
      applyStyleTransfer photoFile artwork env := rfl

/-- Whenever the photo decodes, the real pipeline's promise settles: every
branch past the resize resolves (with success or with a caught error). -/
theorem applyStyleTransfer_settles (photoFile : List Nat) (artwork : Artwork)
    (env : Env) (img : Image) (hdec : env.decoded = some img) :
    ∃ t obs, applyStyleTransfer photoFile artwork env = (.resolved t, obs) := by
  unfold applyStyleTransfer
  rw [hdec]
  by_cases hc : env.createOk = false
  · rw [if_pos hc]
    exact ⟨_, _, rfl⟩
  · rw [if_neg hc]
    rcases hpl : pollLoop env.polls 60 env.initial with ⟨snap, att, reps⟩ | ⟨att, reps⟩
    all_goals dsimp only
    · by_cases hf : snap.status = "failed"
      · rw [if_pos hf]
        exact ⟨_, _, rfl⟩
      · rw [if_neg hf]
        by_cases hs : snap.status ≠ "succeeded"
        · rw [if_pos hs]
          exact ⟨_, _, rfl⟩
        · rw [if_neg hs]
          by_cases hu : urlFalsy (jsResultUrl snap.output)
          · rw [if_pos hu]
            exact ⟨_, _, rfl⟩
          · rw [if_neg hu]
            exact ⟨_, _, rfl⟩
    · exact ⟨_, _, rfl⟩

/-- The reports the pipeline observes are either empty (failure before
polling) or exactly the polling loop's reports. -/
theorem applyStyleTransfer_reports_cases (photoFile : List Nat) (artwork : Artwork)
    (env : Env) :
    (applyStyleTransfer photoFile artwork env).2.reports = [] ∨
    (applyStyleTransfer photoFile artwork env).2.reports =
      (pollLoop env.polls 60 env.initial).reports := by
  unfold applyStyleTransfer
  rcases env.decoded with _ | img
  · exact Or.inl rfl
  · by_cases hc : env.createOk = false
    · rw [if_pos hc]
      exact Or.inl rfl
    · rw [if_neg hc]
      rcases hpl : pollLoop env.polls 60 env.initial with ⟨snap, att, reps⟩ | ⟨att, reps⟩
      all_goals dsimp only
      · by_cases hf : snap.status = "failed"
        · rw [if_pos hf]
          exact Or.inr rfl
        · rw [if_neg hf]
          by_cases hs : snap.status ≠ "succeeded"
          · rw [if_pos hs]
            exact Or.inr rfl
          · rw [if_neg hs]
            by_cases hu : urlFalsy (jsResultUrl snap.output)
            · rw [if_pos hu]
              exact Or.inr rfl
            · rw [if_neg hu]
              exact Or.inr rfl
      · exact Or.inr rfl

/-- Helper for non-emptiness of concatenated prompt strings. -/
theorem string_append_eq_empty_left {s t : String} (h : s ++ t = "") : s = "" := by
  have hd := congrArg String.data h
  rw [String.data_append] at hd
  exact String.ext (List.append_eq_nil.mp hd).1

/-! ### Concrete scenarios used by witnesses and counterexamples -/

def photo0 : List Nat := [7, 7, 7]

def artwork0 : Artwork := { artist := "Vincent van Gogh", artistEn := none, style := "impressionism" }

/-- The photo fails to decode; every later stage would have answered. -/
def envDecodeFail : Env :=
  { decoded := none, createOk := true, createStatus := 201,
    initial := { status := "starting", output := .undef },
    polls := fun _ => { ok := true, status := "processing", output := .undef },
    finalOk := true, finalBytes := [1, 2, 3] }

/-- Submission answers HTTP 500. -/
def envHttp500 : Env :=
  { decoded := some { width := 2000, height := 1000 }, createOk := false, createStatus := 500,
    initial := { status := "starting", output := .undef },
    polls := fun _ => { ok := true, status := "processing", output := .undef },
    finalOk := true, finalBytes := [1, 2, 3] }

/-- Every status poll answers ok but the job stays `processing` forever. -/
def envStuck : Env :=
  { decoded := some { width := 2000, height := 1000 }, createOk := true, createStatus := 201,
    initial := { status := "starting", output := .undef },
    polls := fun _ => { ok := true, status := "processing", output := .undef },
    finalOk := true, finalBytes := [1, 2, 3] }

/-- The first status poll suffers a transport failure; from the second poll
on the service would have reported success. -/
def envPollFail : Env :=
  { decoded := some { width := 2000, height := 1000 }, createOk := true, createStatus := 201,
    initial := { status := "starting", output := .undef },
    polls := fun k =>
      if k = 1 then { ok := false, status := "processing", output := .undef }
      else { ok := true, status := "succeeded", output := .str "https://x/result.jpg" },
    finalOk := true, finalBytes := [1, 2, 3] }

/-- The create request already reports `succeeded` with two output
locators; the final image GET answers with a non-success HTTP status. -/
def envSucceeded : Env :=
  { decoded := some { width := 2000, height := 1000 }, createOk := true, createStatus := 201,
    initial := { status := "succeeded", output := .arr ["https://x/result.jpg", "https://x/r2.jpg"] },
    polls := fun _ => { ok := true, status := "processing", output := .undef },
    finalOk := false, finalBytes := [4, 5, 6] }

/-! ### Claims -/

/-- Claim C1, counterexample: on a decode failure the pipeline does not
return a mock success — `processStyleTransfer`'s promise never settles at
all, because `resizeImage` installs no error handler. -/
theorem processStyleTransfer_decode_failure_never_returns :
    (processStyleTransfer photo0 artwork0 (some "sk-test") envDecodeFail).1 = Outcome.pending ∧
    ¬ ∃ t, (processStyleTransfer photo0 artwork0 (some "sk-test") envDecodeFail).1 =
      Outcome.resolved t := by
  refine ⟨rfl, ?_⟩
  rintro ⟨t, h⟩
  rw [show (processStyleTransfer photo0 artwork0 (some "sk-test") envDecodeFail).1 =
    Outcome.pending from rfl] at h
  simp at h

/-- Claim C1 (amended): with a usable api key, whenever the photo decodes
the real pipeline's promise settles, and whenever it settles unsuccessfully
— non-success HTTP response on submission, status stuck past the budget,
job reporting failed, missing output locator — `processStyleTransfer`
returns the mock result: `success: true`, `isMock: true`, the original
input image echoed back.  Only a decode failure escapes this policy, by
hanging instead of returning. -/
theorem processStyleTransfer_fallback_on_pipeline_failure
    (photoFile : List Nat) (artwork : Artwork) (key : Option String) (env : Env) (img : Image)
    (hdec : env.decoded = some img) (hkey : apiKeyMissing key = false) :
    ∃ t obs, applyStyleTransfer photoFile artwork env = (.resolved t, obs) ∧
      (t.success = false →
        (processStyleTransfer photoFile artwork key env).1 =
          .resolved (mockStyleTransfer photoFile) ∧
        (mockStyleTransfer photoFile).success = true ∧
        (mockStyleTransfer photoFile).isMock = true ∧
        (mockStyleTransfer photoFile).blob = some photoFile) ∧
      (t.success = true → (processStyleTransfer photoFile artwork key env).1 = .resolved t) := by
  obtain ⟨t, obs, happ⟩ := applyStyleTransfer_settles photoFile artwork env img hdec
  refine ⟨t, obs, happ, ?_, ?_⟩
  · intro hfail
    unfold processStyleTransfer
    rw [hkey]
    simp only [Bool.false_eq_true, if_false, happ]
    rw [hfail]
    exact ⟨rfl, rfl, rfl, rfl⟩
  · intro hsucc
    unfold processStyleTransfer
    rw [hkey]
    simp only [Bool.false_eq_true, if_false, happ]
    rw [hsucc]
    rfl

/-- Claim C1, witness: HTTP 500 on submission falls back to the tagged mock
result. -/
theorem processStyleTransfer_fallback_witness :
    ∃ t obs, applyStyleTransfer photo0 artwork0 envHttp500 = (.resolved t, obs) ∧
      (t.success = false →
        (processStyleTransfer photo0 artwork0 (some "sk-test") envHttp500).1 =
          .resolved (mockStyleTransfer photo0) ∧
        (mockStyleTransfer photo0).success = true ∧
        (mockStyleTransfer photo0).isMock = true ∧
        (mockStyleTransfer photo0).blob = some photo0) ∧
      (t.success = true →
        (processStyleTransfer photo0 artwork0 (some "sk-test") envHttp500).1 = .resolved t) :=
  processStyleTransfer_fallback_on_pipeline_failure photo0 artwork0 (some "sk-test") envHttp500
    { width := 2000, height := 1000 } rfl (by decide)

/-- Claim C2, counterexample: a 500×2000 portrait photo has longer edge
2000 > 768, yet `resizeImage` leaves it untouched because only the width is
compared to the bound — the returned width is 500, not 768. -/
theorem resizeImage_longer_edge_counterexample :
    max 500 2000 > 768 ∧
    ¬ ∃ res : Image, resizeImage (some { width := 500, height := 2000 }) 768 =
      .resolved res ∧ res.width = 768 := by
  refine ⟨by decide, ?_⟩
  rintro ⟨res, heq, hw⟩
  rw [show resizeImage (some { width := 500, height := 2000 }) 768 =
    .resolved { width := 500, height := 2000 } from rfl] at heq
  injection heq with h
  rw [← h] at hw
  exact absurd hw (by decide)

/-- Claim C2 (amended): the comparison is against the width, not the longer
edge.  If the width exceeds `maxDimension` the result has width exactly
`maxDimension` and height `trunc(h·maxW/w)`, which is within ±1px of
`round(h·maxW/w)`; if the width is within bounds the dimensions pass
through unchanged (in particular every image whose longer edge is within
bounds passes through, but so does a too-tall portrait image). -/
theorem resizeImage_width_spec (img : Image) (maxW : Nat) :
    (img.width ≤ maxW → resizeImage (some img) maxW = .resolved img) ∧
    (maxW < img.width →
      resizeImage (some img) maxW =
        .resolved { width := maxW, height := img.height * maxW / img.width } ∧
      |((img.height * maxW / img.width : Nat) : ℤ) -
        ((jsRoundNat (img.height * maxW) img.width : Nat) : ℤ)| ≤ 1) := by
  constructor
  · intro h
    unfold resizeImage
    dsimp only
    rw [if_neg (by omega)]
  · intro h
    have hb : 0 < img.width := by omega
    refine ⟨?_, ?_⟩
    · unfold resizeImage
      dsimp only
      rw [if_pos (by omega)]
    · have e1 : 2 * (img.height * maxW) / (2 * img.width) = img.height * maxW / img.width :=
        Nat.mul_div_mul_left _ _ (by norm_num)
      have h1 : img.height * maxW / img.width ≤ jsRoundNat (img.height * maxW) img.width := by
        unfold jsRoundNat
        rw [← e1]
        exact Nat.div_le_div_right (by omega)
      have h2 : jsRoundNat (img.height * maxW) img.width ≤
          img.height * maxW / img.width + 1 := by
        unfold jsRoundNat
        calc (2 * (img.height * maxW) + img.width) / (2 * img.width) ≤
            (2 * (img.height * maxW) + 2 * img.width) / (2 * img.width) :=
              Nat.div_le_div_right (by omega)
          _ = 2 * (img.height * maxW) / (2 * img.width) + 1 :=
              Nat.add_div_right _ (by omega)
          _ = img.height * maxW / img.width + 1 := by rw [e1]
      rw [abs_le]
      omega

/-- Claim C2, witness: a 2000×1000 photo with bound 768 is resized to
768×384, within ±1px of the rounded aspect-preserving height. -/
theorem resizeImage_width_spec_witness :
    768 < 2000 ∧
    (resizeImage (some { width := 2000, height := 1000 }) 768 =
      .resolved { width := 768, height := 1000 * 768 / 2000 } ∧
    |((1000 * 768 / 2000 : Nat) : ℤ) - ((jsRoundNat (1000 * 768) 2000 : Nat) : ℤ)| ≤ 1) :=
  ⟨by decide, (resizeImage_width_spec { width := 2000, height := 1000 } 768).2 (by decide)⟩

/-- Claim C3: if every status poll answers ok with a non-terminal status,
the orchestrator issues exactly 60 polls (the budget), fetches nothing
further, and the pipeline resolves with the `Processing timeout` failure. -/
theorem applyStyleTransfer_timeout
    (photoFile : List Nat) (artwork : Artwork) (env : Env) (img : Image)
    (hdec : env.decoded = some img) (hcr : env.createOk = true)
    (hi1 : env.initial.status ≠ "succeeded") (hi2 : env.initial.status ≠ "failed")
    (hp : ∀ k, (env.polls k).ok = true ∧ (env.polls k).status ≠ "succeeded" ∧
      (env.polls k).status ≠ "failed") :
    (applyStyleTransfer photoFile artwork env).1 = .resolved (failedResult "Processing timeout") ∧
    (applyStyleTransfer photoFile artwork env).2.pollCalls = 60 ∧
    (applyStyleTransfer photoFile artwork env).2.finalFetchCalls = 0 := by
  obtain ⟨snap', reports', heq, hns, hnf⟩ :=
    pollLoopAux_stuck env.polls 60 hp 60 env.initial 0 [] (by omega) (by omega) hi1 hi2
  have hpl : pollLoop env.polls 60 env.initial = .done snap' 60 reports' := heq
  unfold applyStyleTransfer
  rw [hdec]
  dsimp only
  rw [if_neg (by simp [hcr])]
  rw [hpl]
  dsimp only
  rw [if_neg hnf, if_pos hns]
  exact ⟨rfl, rfl, rfl⟩

/-- Claim C3, witness: with the job stuck at `processing`, the run issues
exactly 60 polls and times out. -/
theorem applyStyleTransfer_timeout_witness :
    envStuck.createOk = true ∧
    ((applyStyleTransfer photo0 artwork0 envStuck).1 =
      .resolved (failedResult "Processing timeout") ∧
    (applyStyleTransfer photo0 artwork0 envStuck).2.pollCalls = 60 ∧
    (applyStyleTransfer photo0 artwork0 envStuck).2.finalFetchCalls = 0) :=
  ⟨rfl, applyStyleTransfer_timeout photo0 artwork0 envStuck { width := 2000, height := 1000 }
    rfl rfl (by decide) (by decide)
    (fun _ => ⟨rfl, by show ("processing" : String) ≠ "succeeded"; decide,
      by show ("processing" : String) ≠ "failed"; decide⟩)⟩

/-- Claim C4: the progress percentages reported while polling follow
`min(95, 10 + attempts · 1.5)`: across any run they form a non-decreasing
sequence, every reported value is below 100 (indeed at most 95), and the
formula itself is monotone in the attempt count. -/
theorem pollProgress_reports_spec (photoFile : List Nat) (artwork : Artwork) (env : Env) :
    ((applyStyleTransfer photoFile artwork env).2.reports).Sorted (· ≤ ·) ∧
    (∀ q ∈ (applyStyleTransfer photoFile artwork env).2.reports, q < 100) ∧
    (∀ j k : Nat, j ≤ k → pollProgress j ≤ pollProgress k) ∧
    (∀ k : Nat, pollProgress k ≤ 95) := by
  refine ⟨?_, ?_, fun j k h => pollProgress_mono h, pollProgress_le_95⟩
  all_goals
    rcases applyStyleTransfer_reports_cases photoFile artwork env with h | h <;> rw [h]
  · exact List.sorted_nil
  · exact (pollLoopAux_reports_invariant env.polls 60 60 env.initial 0 []
      List.sorted_nil (by simp)).1
  · simp
  · intro q hq
    exact lt_of_le_of_lt
      ((pollLoopAux_reports_invariant env.polls 60 60 env.initial 0 []
        List.sorted_nil (by simp)).2 q hq) (by norm_num)

/-- Claim C4, witness: monotonicity of the reported formula at concrete
attempt counts. -/
theorem pollProgress_reports_spec_witness :
    (3 : Nat) ≤ 7 ∧ pollProgress 3 ≤ pollProgress 7 :=
  ⟨by decide, (pollProgress_reports_spec photo0 artwork0 envStuck).2.2.1 3 7 (by decide)⟩

/-- Claim C5 (code bug): on a decode failure `resizeImage` neither rejects
with a `DecodeError` nor resolves — the source installs no `onerror`
handler, so the promise (and with it the whole pipeline) never settles. -/
theorem resizeImage_decode_failure_pending :
    resizeImage none 768 = Outcome.pending ∧
    (applyStyleTransfer photo0 artwork0 envDecodeFail).1 = Outcome.pending :=
  ⟨rfl, rfl⟩

/-- Claim C6, counterexample: a transient transport failure on the very
first status poll — the service would have reported success from the second
poll on — aborts the orchestration immediately with the poll error after a
single poll, instead of being retried up to the attempt budget. -/
theorem applyStyleTransfer_poll_error_counterexample :
    (envPollFail.polls 1).ok = false ∧ (envPollFail.polls 2).ok = true ∧
    (applyStyleTransfer photo0 artwork0 envPollFail).1 =
      .resolved (failedResult "Failed to get prediction status") ∧
    (applyStyleTransfer photo0 artwork0 envPollFail).2.pollCalls = 1 := by
  decide

/-- Claim C6 (amended): a non-success status-poll response is never
retried: the first non-ok poll (any attempt k within the budget, all
earlier polls ok and non-terminal) immediately aborts the orchestration
with the `Failed to get prediction status` error after exactly k polls, and
the entry point then falls back to the mock. -/
theorem applyStyleTransfer_poll_error_aborts
    (photoFile : List Nat) (artwork : Artwork) (env : Env) (img : Image) (k : Nat)
    (hdec : env.decoded = some img) (hcr : env.createOk = true)
    (hi1 : env.initial.status ≠ "succeeded") (hi2 : env.initial.status ≠ "failed")
    (h0k : 0 < k) (hk60 : k ≤ 60)
    (hj : ∀ j, 0 < j → j < k → (env.polls j).ok = true ∧ (env.polls j).status ≠ "succeeded" ∧
      (env.polls j).status ≠ "failed")
    (hk : (env.polls k).ok = false) :
    (applyStyleTransfer photoFile artwork env).1 =
      .resolved (failedResult "Failed to get prediction status") ∧
    (applyStyleTransfer photoFile artwork env).2.pollCalls = k := by
  obtain ⟨reports', heq⟩ := pollLoopAux_poll_failure env.polls 60 60 env.initial 0 [] k
    h0k hk60 (by omega) (fun j haj hjk => hj j haj hjk) hk hi1 hi2
  have hpl : pollLoop env.polls 60 env.initial = .pollFailed k reports' := heq
  unfold applyStyleTransfer
  rw [hdec]
  dsimp only
  rw [if_neg (by simp [hcr])]
  rw [hpl]
  exact ⟨rfl, rfl⟩

/-- Claim C6, witness: the amended statement at the concrete
transient-failure scenario. -/
theorem applyStyleTransfer_poll_error_aborts_witness :
    (envPollFail.polls 1).ok = false ∧
    ((applyStyleTransfer photo0 artwork0 envPollFail).1 =
      .resolved (failedResult "Failed to get prediction status") ∧
    (applyStyleTransfer photo0 artwork0 envPollFail).2.pollCalls = 1) :=
  ⟨rfl, applyStyleTransfer_poll_error_aborts photo0 artwork0 envPollFail
    { width := 2000, height := 1000 } 1 rfl rfl (by decide) (by decide) (by decide) (by decide)
    (fun j hj hjk => absurd (by omega : j < j) (lt_irrefl j)) rfl⟩

/-- Claim C7: on a terminal `succeeded` snapshot the canonical output
locator is the first element when `output` is a list and the single value
otherwise; a missing field, an empty list, or an empty value makes the
locator falsy and the pipeline resolves with the `No result image` failure,
while a usable locator yields success carrying it as the remote URL. -/
theorem applyStyleTransfer_succeeded_output
    (photoFile : List Nat) (artwork : Artwork) (env : Env) (img : Image)
    (snap : Snapshot) (att : Nat) (reps : List ℚ)
    (hdec : env.decoded = some img) (hcr : env.createOk = true)
    (hpl : pollLoop env.polls 60 env.initial = .done snap att reps)
    (hsucc : snap.status = "succeeded") :
    (∀ x xs, snap.output = .arr (x :: xs) → jsResultUrl snap.output = some x) ∧
    (∀ s, snap.output = .str s → jsResultUrl snap.output = some s) ∧
    ((snap.output = .undef ∨ snap.output = .arr []) → jsResultUrl snap.output = none) ∧
    (urlFalsy (jsResultUrl snap.output) = true →
      (applyStyleTransfer photoFile artwork env).1 =
        .resolved (failedResult "No result image")) ∧
    (∀ u, jsResultUrl snap.output = some u → u ≠ "" →
      (applyStyleTransfer photoFile artwork env).1 =
        .resolved { success := true, resultUrl := some env.finalBytes,
                    blob := some env.finalBytes, remoteUrl := some u,
                    isMock := false, error := none }) := by
  refine ⟨?_, ?_, ?_, ?_, ?_⟩
  · intro x xs hx
    rw [hx]
    rfl
  · intro s hs
    rw [hs]
    rfl
  · rintro (hu | hu) <;> rw [hu] <;> rfl
  · intro hfalsy
    unfold applyStyleTransfer
    rw [hdec]
    dsimp only
    rw [if_neg (by simp [hcr])]
    rw [hpl]
    dsimp only
    rw [if_neg (by simp [hsucc]), if_neg (by simp [hsucc]), if_pos hfalsy]
  · intro u hu hne
    unfold applyStyleTransfer
    rw [hdec]
    dsimp only
    rw [if_neg (by simp [hcr])]
    rw [hpl]
    dsimp only
    rw [if_neg (by simp [hsucc]), if_neg (by simp [hsucc]),
      if_neg (by simp [urlFalsy, hu, hne])]
    rw [hu]

/-- Claim C7, witness: a succeeded job with a plural output list returns
success carrying the first locator. -/
theorem applyStyleTransfer_succeeded_output_witness :
    envSucceeded.initial.status = "succeeded" ∧
    jsResultUrl envSucceeded.initial.output = some "https://x/result.jpg" ∧
    (applyStyleTransfer photo0 artwork0 envSucceeded).1 =
      .resolved { success := true, resultUrl := some envSucceeded.finalBytes,
                  blob := some envSucceeded.finalBytes,
                  remoteUrl := some "https://x/result.jpg",
                  isMock := false, error := none } :=
  ⟨rfl, rfl,
    (applyStyleTransfer_succeeded_output photo0 artwork0 envSucceeded
      { width := 2000, height := 1000 } envSucceeded.initial 0 [] rfl rfl (by decide)
      rfl).2.2.2.2 "https://x/result.jpg" rfl (by decide)⟩

/-- Claim C8: `createArtisticPrompt` always returns a non-empty string,
using the per-artist fragment when the (effective) artist name is in the
artist table, else the per-style fragment when the style category is in the
style table, else the generic `artistic painting style` fragment. -/
theorem createArtisticPrompt_spec (a : Artwork) :
    createArtisticPrompt a ≠ "" ∧
    (∀ k, List.lookup (jsOrStr a.artistEn a.artist) artistPrompts = some k → k ≠ "" →
      createArtisticPrompt a = "A beautiful painting in the style of " ++
        jsOrStr a.artistEn a.artist ++ ", " ++ k ++
        ", masterpiece, high quality, professional artwork, detailed, artistic interpretation") ∧
    (∀ k, List.lookup (jsOrStr a.artistEn a.artist) artistPrompts = none →
      List.lookup a.style styleKeywords = some k → k ≠ "" →
      createArtisticPrompt a = "A beautiful painting in the style of " ++
        jsOrStr a.artistEn a.artist ++ ", " ++ k ++
        ", masterpiece, high quality, professional artwork, detailed, artistic interpretation") ∧
    (List.lookup (jsOrStr a.artistEn a.artist) artistPrompts = none →
      List.lookup a.style styleKeywords = none →
      createArtisticPrompt a = "A beautiful painting in the style of " ++
        jsOrStr a.artistEn a.artist ++ ", " ++ "artistic painting style" ++
        ", masterpiece, high quality, professional artwork, detailed, artistic interpretation") := by
  refine ⟨?_, ?_, ?_, ?_⟩
  · intro h
    unfold createArtisticPrompt at h
    have h1 := string_append_eq_empty_left (string_append_eq_empty_left
      (string_append_eq_empty_left (string_append_eq_empty_left h)))
    exact absurd h1 (by decide)
  · intro k hk hne
    simp only [createArtisticPrompt]
    rw [hk]
    simp only [jsOrStr, if_neg hne]
  · intro k hnone hk hne
    simp only [createArtisticPrompt]
    rw [hnone, hk]
    simp only [jsOrStr, if_neg hne]
  · intro hnone1 hnone2
    simp only [createArtisticPrompt]
    rw [hnone1, hnone2]
    rfl

/-- Claim C8, witness: an unrecognized artist/style pair falls through to
the generic fragment, and a recognized artist takes the per-artist
fragment. -/
theorem createArtisticPrompt_spec_witness :
    List.lookup "Nobody" artistPrompts = none ∧
    createArtisticPrompt { artist := "Nobody", artistEn := none, style := "dada" } =
      "A beautiful painting in the style of " ++ "Nobody" ++ ", " ++
      "artistic painting style" ++
      ", masterpiece, high quality, professional artwork, detailed, artistic interpretation" :=
  ⟨by decide,
    (createArtisticPrompt_spec { artist := "Nobody", artistEn := none, style := "dada" }).2.2.2
      (by decide) (by decide)⟩

/-- Claim C9: a missing (falsy) api key or the placeholder key short-circuits
to the mock result: no resize, no submission request, no polls, no final
fetch, and the returned result is the tagged mock echoing the input. -/
theorem processStyleTransfer_missing_key_mock
    (photoFile : List Nat) (artwork : Artwork) (key : Option String) (env : Env)
    (hkey : apiKeyMissing key = true) :
    processStyleTransfer photoFile artwork key env =
      (.resolved (mockStyleTransfer photoFile),
       { resizeCalls := 0, createCalls := 0, pollCalls := 0, finalFetchCalls := 0,
         reports := [] }) ∧
    (mockStyleTransfer photoFile).isMock = true ∧
    (mockStyleTransfer photoFile).success = true ∧
    (mockStyleTransfer photoFile).blob = some photoFile := by
  unfold processStyleTransfer
  rw [hkey]
  exact ⟨rfl, rfl, rfl, rfl⟩

/-- Claim C9, witness: the placeholder key goes straight to the mock even
when the environment would have answered every request. -/
theorem processStyleTransfer_missing_key_mock_witness :
    apiKeyMissing (some "YOUR_REPLICATE_API_KEY_HERE") = true ∧
    (processStyleTransfer photo0 artwork0 (some "YOUR_REPLICATE_API_KEY_HERE") envSucceeded =
      (.resolved (mockStyleTransfer photo0),
       { resizeCalls := 0, createCalls := 0, pollCalls := 0, finalFetchCalls := 0,
         reports := [] }) ∧
    (mockStyleTransfer photo0).isMock = true ∧
    (mockStyleTransfer photo0).success = true ∧
    (mockStyleTransfer photo0).blob = some photo0) :=
  ⟨by decide, processStyleTransfer_missing_key_mock photo0 artwork0
    (some "YOUR_REPLICATE_API_KEY_HERE") envSucceeded (by decide)⟩

/-- Claim C10: the HTTP status of the final result-image fetch is never
consulted: for a succeeded job with a usable locator the pipeline resolves
`success: true` with whatever bytes that GET returned, and the whole run is
insensitive to the final fetch's ok flag. -/
theorem applyStyleTransfer_ignores_final_fetch_status
    (photoFile : List Nat) (artwork : Artwork) (env : Env) (img : Image)
    (snap : Snapshot) (att : Nat) (reps : List ℚ) (u : String)
    (hdec : env.decoded = some img) (hcr : env.createOk = true)
    (hpl : pollLoop env.polls 60 env.initial = .done snap att reps)
    (hsucc : snap.status = "succeeded")
    (hu : jsResultUrl snap.output = some u) (hne : u ≠ "") :
    (applyStyleTransfer photoFile artwork env).1 =
      .resolved { success := true, resultUrl := some env.finalBytes,
                  blob := some env.finalBytes, remoteUrl := some u,
                  isMock := false, error := none } ∧
    ∀ b, applyStyleTransfer photoFile artwork { env with finalOk := b } =
      applyStyleTransfer photoFile artwork env := by
  refine ⟨?_, fun b => applyStyleTransfer_finalOk_irrelevant photoFile artwork env b⟩
  unfold applyStyleTransfer
  rw [hdec]
  dsimp only
  rw [if_neg (by simp [hcr])]
  rw [hpl]
  dsimp only
  rw [if_neg (by simp [hsucc]), if_neg (by simp [hsucc]),
    if_neg (by simp [urlFalsy, hu, hne])]
  rw [hu]

/-- Claim C10, witness: the final fetch answers with `ok = false`, yet the
run returns success with those bytes as the result blob. -/
theorem applyStyleTransfer_ignores_final_fetch_status_witness :
    envSucceeded.finalOk = false ∧
    ((applyStyleTransfer photo0 artwork0 envSucceeded).1 =
      .resolved { success := true, resultUrl := some envSucceeded.finalBytes,
                  blob := some envSucceeded.finalBytes,
                  remoteUrl := some "https://x/result.jpg",
                  isMock := false, error := none } ∧
    ∀ b, applyStyleTransfer photo0 artwork0 { envSucceeded with finalOk := b } =
      applyStyleTransfer photo0 artwork0 envSucceeded) :=
  ⟨rfl, applyStyleTransfer_ignores_final_fetch_status photo0 artwork0 envSucceeded
    { width := 2000, height := 1000 } envSucceeded.initial 0 [] "https://x/result.jpg"
    rfl rfl (by decide) rfl rfl (by decide)⟩

end PicoArt
